import Mathlib

/-!
Verification of the HomeGenie MCP server core (src/homegenie_mcp_server.py):
the mock weather / energy-price generators, the time-of-day pricing tiers,
and the response formatters.  The Python source is shallowly embedded below;
wall-clock reads (`datetime.now()`) become an explicit `DateTime` parameter,
and the random source becomes explicit draw parameters with their contracts
(`random.random() ∈ [0,1]`, `random.randint(a,b) ∈ [a,b]`) as hypotheses.
All prices and temperatures are modelled as exact rationals: every numeric
value the program produces is an exact multiple of 1/1000, so binary
floating point introduces no deviation at the printed precision.
-/

namespace HomeGenie

/-- Wall-clock instant, at second precision (the microsecond component of
`datetime.now()` is irrelevant to every property considered here).
`day` counts days; arithmetic that crosses a month boundary is not needed by
any property below, so `addHours` carries hours into `day` directly. -/
structure DateTime where
  year : Nat
  month : Nat
  day : Nat
  hour : Nat
  minute : Nat
  second : Nat
deriving DecidableEq

/-- `datetime + timedelta(hours=i)`: hours carry into the day count. -/
def addHours (dt : DateTime) (i : Nat) : DateTime :=
  { dt with day := dt.day + (dt.hour + i) / 24, hour := (dt.hour + i) % 24 }

/-- Absolute minute count of an instant (days linearised). -/
def absMinutes (dt : DateTime) : Nat :=
  (dt.day * 24 + dt.hour) * 60 + dt.minute

/-- One decimal digit as a character (callers always pass a value `% 10`). -/
def digitChar (k : Nat) : Char :=
  if k = 0 then '0' else if k = 1 then '1' else if k = 2 then '2' else if k = 3 then '3'
  else if k = 4 then '4' else if k = 5 then '5' else if k = 6 then '6' else if k = 7 then '7'
  else if k = 8 then '8' else '9'

/-- Zero-padded two-digit rendering (`%02d` for values < 100). -/
def pad2L (n : Nat) : List Char := [digitChar (n / 10 % 10), digitChar (n % 10)]

/-- Zero-padded three-digit rendering. -/
def pad3L (n : Nat) : List Char :=
  [digitChar (n / 100 % 10), digitChar (n / 10 % 10), digitChar (n % 10)]

/-- Zero-padded four-digit rendering (`%Y` for years 1000–9999). -/
def pad4L (n : Nat) : List Char :=
  [digitChar (n / 1000 % 10), digitChar (n / 100 % 10),
   digitChar (n / 10 % 10), digitChar (n % 10)]

/-- `time.strftime("%H:%M")`. -/
def strftimeHM (dt : DateTime) : String :=
  ⟨pad2L dt.hour ++ [':'] ++ pad2L dt.minute⟩

/-- `time.strftime("%Y-%m-%d")`. -/
def strftimeYMD (dt : DateTime) : String :=
  ⟨pad4L dt.year ++ ['-'] ++ pad2L dt.month ++ ['-'] ++ pad2L dt.day⟩

/-- `datetime.isoformat()` at second precision:
`YYYY-MM-DDTHH:MM:SS`. -/
def isoformat (dt : DateTime) : String :=
  ⟨pad4L dt.year ++ ['-'] ++ pad2L dt.month ++ ['-'] ++ pad2L dt.day ++
   ['T'] ++ pad2L dt.hour ++ [':'] ++ pad2L dt.minute ++ [':'] ++ pad2L dt.second⟩

/-- Python 3 `round` to an integer: round half to even, written over the
numerator and denominator so it evaluates by kernel reduction.
`f` is the floor of `q`; `r2` is twice the remainder scaled by the
denominator, so `r2 < den ↔ frac < 1/2`. -/
def roundHalfEven (q : ℚ) : ℤ :=
  let f := q.num / (q.den : ℤ)
  let r2 := 2 * (q.num - f * q.den)
  if r2 < (q.den : ℤ) then f
  else if (q.den : ℤ) < r2 then f + 1
  else if f % 2 = 0 then f else f + 1

/-- `round(x, 1)`. -/
def round1 (q : ℚ) : ℚ := (roundHalfEven (q * 10) : ℚ) / 10

/-- `round(x, 3)`. -/
def round3 (q : ℚ) : ℚ := (roundHalfEven (q * 1000) : ℚ) / 1000

/-- Pricing tier of an hour-of-day: multiplier and period label, embedding the
`if 7 <= hour <= 9 or 17 <= hour <= 20 / elif hour >= 22 or hour <= 6 / else`
chain that the source repeats at lines 68–76 (current price) and 88–96
(forecast loop). -/
def tierOf (h : Nat) : ℚ × String :=
  if (7 ≤ h ∧ h ≤ 9) ∨ (17 ≤ h ∧ h ≤ 20) then (1.8, "peak")
  else if 22 ≤ h ∨ h ≤ 6 then (0.7, "off_peak")
  else (1.0, "standard")

/-- The tier multiplier alone. -/
def tierMultiplier (h : Nat) : ℚ := (tierOf h).1

/-- The tier label alone. -/
def tierLabel (h : Nat) : String := (tierOf h).2

/-- `base_price = 0.25` (line 65). -/
def basePrice : ℚ := 0.25

/-! ### String helpers shared by the formatters -/

/-- Does the pattern occur at the head of the list? -/
def hasPre : List Char → List Char → Bool
  | [], _ => true
  | _ :: _, [] => false
  | a :: as, b :: bs => a == b && hasPre as bs

/-- Does the pattern occur as a contiguous sublist? -/
def hasSub : List Char → List Char → Bool
  | pat, [] => pat.isEmpty
  | pat, b :: bs => hasPre pat (b :: bs) || hasSub pat bs

/-- Python's substring test `pat in s`. -/
def strContainsSub (s pat : String) : Bool := hasSub pat.data s.data

/-- Case-insensitive substring test (the spec's phrasing of the lighting
rule; compared below with the source's case-sensitive test). -/
def containsCI (s pat : String) : Bool :=
  hasSub (pat.data.map Char.toLower) (s.data.map Char.toLower)

/-- Python `str.title()`: the first letter of every alphabetic run is
upper-cased, the rest lower-cased. -/
def pyTitleAux : List Char → Bool → List Char
  | [], _ => []
  | c :: cs, prevAlpha =>
    (if c.isAlpha then (if prevAlpha then c.toLower else c.toUpper) else c)
      :: pyTitleAux cs c.isAlpha

/-- Python `str.title()`. -/
def pyTitle (s : String) : String := ⟨pyTitleAux s.data false⟩

/-- Drop trailing `'0'` characters. -/
def stripZeros (l : List Char) : List Char :=
  (l.reverse.dropWhile (fun c => c == '0')).reverse

/-- Python `repr`/`str` of a non-negative float that is an exact multiple of
1/1000 (every numeric value this program prints is one): integer part, a dot,
then the fractional digits without trailing zeros (`.0` when the value is
whole, the way Python prints whole floats). -/
def pyFloatRepr (q : ℚ) : String :=
  let milli : Nat := ((q * 1000).num / ((q * 1000).den : ℤ)).toNat
  let whole := milli / 1000
  let frac := milli % 1000
  if frac = 0 then toString whole ++ ".0"
  else toString whole ++ "." ++ ⟨stripZeros (pad3L frac)⟩

/-- JSON string escaping for the characters this program can emit (quote and
backslash; `json.dumps`'s `\uXXXX` escapes for control characters are not
needed by any generated string). -/
def escapeChar (c : Char) : List Char :=
  if c == '"' then ['\\', '"'] else if c == '\\' then ['\\', '\\'] else [c]

/-- Escape every character of a list. -/
def escapeL (l : List Char) : List Char :=
  l.foldr (fun c acc => escapeChar c ++ acc) []

/-- A JSON string literal. -/
def jsonStr (s : String) : String := "\"" ++ (⟨escapeL s.data⟩ : String) ++ "\""

/-! ### Energy price generator (`get_mock_energy_prices`, lines 62–120) -/

/-- One entry of `price_forecast` (lines 98–103). -/
structure ForecastPoint where
  time : String
  date : String
  price_per_kwh : ℚ
  period : String
deriving DecidableEq

/-- The `current_price` record (lines 108–113). -/
structure CurrentPrice where
  price_per_kwh : ℚ
  currency : String
  period : String
  unit : String
deriving DecidableEq

/-- The `market_info` record (lines 115–119). -/
structure MarketInfo where
  market : String
  source : String
  last_updated : String
deriving DecidableEq

/-- The dictionary returned by `get_mock_energy_prices` (lines 105–120). -/
structure EnergyPriceReport where
  region : String
  timestamp : String
  current_price : CurrentPrice
  price_forecast : List ForecastPoint
  market_info : MarketInfo
deriving DecidableEq

/-- One forecast entry for the instant `t` (loop body, lines 84–103). -/
def mkForecastPoint (t : DateTime) : ForecastPoint :=
  { time := strftimeHM t
    date := strftimeYMD t
    price_per_kwh := round3 (basePrice * (tierOf t.hour).1)
    period := (tierOf t.hour).2 }

/-- `get_mock_energy_prices` (lines 62–120).  The several `datetime.now()`
reads of the source are collapsed into the single parameter `now`. -/
def get_mock_energy_prices (region : String) (now : DateTime) : EnergyPriceReport :=
  { region := region
    timestamp := isoformat now
    current_price :=
      { price_per_kwh := round3 (basePrice * (tierOf now.hour).1)
        currency := "EUR"
        period := (tierOf now.hour).2
        unit := "kWh" }
    price_forecast := (List.range 24).map (fun i => mkForecastPoint (addHours now i))
    market_info :=
      { market := "Day Ahead"
        source := "Energy Exchange"
        last_updated := isoformat now } }

/-! ### Energy formatter (`get_energy_prices`, lines 158–191) -/

/-- The cost-impact recommendation (line 180). -/
def costImpact (p : ℚ) : String :=
  if p > 0.35 then "High cost - consider energy saving"
  else if p > 0.20 then "Standard cost"
  else "Low cost - good time for energy-intensive tasks"

/-- The smart-action recommendation (line 181). -/
def smartActions (period : String) : String :=
  if period = "peak" then "Delay washing/heating"
  else if period = "off_peak" then "Good time for appliances"
  else "Normal usage"

/-- `current['period'].replace('_', ' ').title()` (lines 174, 179). -/
def periodDisplay (period : String) : String :=
  pyTitle (period.replace "_" " ")

/-- The fixed part of the report (the f-string of lines 170–181). -/
def energyBody (region : String) (r : EnergyPriceReport) : String :=
  "⚡ Energy Prices for " ++ region ++ ":\n        \n💰 Current Price:\n• Price: €"
    ++ pyFloatRepr r.current_price.price_per_kwh
    ++ "/kWh\n• Period: " ++ periodDisplay r.current_price.period
    ++ "\n• Currency: " ++ r.current_price.currency
    ++ "\n• Last Updated: " ++ r.timestamp.take 19
    ++ "\n\n🏠 HomeGenie Recommendations:\n• Period Type: "
    ++ periodDisplay r.current_price.period
    ++ "\n• Cost Impact: " ++ costImpact r.current_price.price_per_kwh
    ++ "\n• Smart Actions: " ++ smartActions r.current_price.period

/-- One forecast display line (line 187). -/
def forecastLine (p : ForecastPoint) : String :=
  "• " ++ p.time ++ ": €" ++ pyFloatRepr p.price_per_kwh ++ "/kWh (" ++ p.period ++ ")\n"

/-- The optional forecast section (lines 183–187): header plus one line per
entry of `price_forecast[:8]`. -/
def forecastSection (r : EnergyPriceReport) : String :=
  "\n\n📈 Next 8 Hours Forecast:\n"
    ++ String.join ((r.price_forecast.take 8).map forecastLine)

/-- `json.dumps` of one forecast entry inside the report (indent level of a
list element nested one deep). -/
def dumpPoint (p : ForecastPoint) : String :=
  "    \x7b\n      \"time\": " ++ jsonStr p.time
    ++ ",\n      \"date\": " ++ jsonStr p.date
    ++ ",\n      \"price_per_kwh\": " ++ pyFloatRepr p.price_per_kwh
    ++ ",\n      \"period\": " ++ jsonStr p.period ++ "\n    \x7d"

/-- The part of `json.dumps(price_data, indent=2)` before the forecast
entries. -/
def dumpsReportPre (r : EnergyPriceReport) : String :=
  "\x7b\n  \"region\": " ++ jsonStr r.region
    ++ ",\n  \"timestamp\": " ++ jsonStr r.timestamp
    ++ ",\n  \"current_price\": \x7b\n    \"price_per_kwh\": "
    ++ pyFloatRepr r.current_price.price_per_kwh
    ++ ",\n    \"currency\": " ++ jsonStr r.current_price.currency
    ++ ",\n    \"period\": " ++ jsonStr r.current_price.period
    ++ ",\n    \"unit\": " ++ jsonStr r.current_price.unit
    ++ "\n  \x7d,\n  \"price_forecast\": [\n"

/-- The part of `json.dumps(price_data, indent=2)` after the forecast
entries. -/
def dumpsReportPost (r : EnergyPriceReport) : String :=
  "\n  ],\n  \"market_info\": \x7b\n    \"market\": " ++ jsonStr r.market_info.market
    ++ ",\n    \"source\": " ++ jsonStr r.market_info.source
    ++ ",\n    \"last_updated\": " ++ jsonStr r.market_info.last_updated
    ++ "\n  \x7d\n\x7d"

/-- `json.dumps(price_data, indent=2)` (line 189).  The forecast list is
always non-empty here, so the empty-list rendering is not modelled. -/
def dumpsReport (r : EnergyPriceReport) : String :=
  dumpsReportPre r
    ++ String.intercalate ",\n" (r.price_forecast.map dumpPoint)
    ++ dumpsReportPost r

/-- The trailing raw-data section (line 189). -/
def rawSection (r : EnergyPriceReport) : String :=
  "\n\n📱 Raw Data: " ++ dumpsReport r

/-- The `EnergyRequest` model (lines 31–33). -/
structure EnergyRequest where
  region : String
  include_forecast : Bool
deriving DecidableEq

/-- Pydantic parsing of an `EnergyRequest`: `Field(default=...)` substitutes
the default only when the field is absent; a value that is present — the
empty string included — is kept verbatim. -/
def parseEnergyRequest (region : Option String) (include_forecast : Option Bool) :
    EnergyRequest :=
  { region := region.getD "EU", include_forecast := include_forecast.getD true }

/-- The `get_energy_prices` tool (lines 158–191). -/
def get_energy_prices (request : EnergyRequest) (now : DateTime) : String :=
  let price_data := get_mock_energy_prices request.region now
  let result := energyBody request.region price_data
  let result :=
    if request.include_forecast then result ++ forecastSection price_data else result
  result ++ rawSection price_data

/-! ### Weather generator (`get_mock_weather_data`, lines 36–60) -/

/-- The `main` sub-dictionary (lines 41–46). -/
structure WeatherMain where
  temp : ℚ
  feels_like : ℚ
  humidity : Nat
  pressure : Nat
deriving DecidableEq

/-- One element of the `weather` list (lines 47–51). -/
structure WeatherCondition where
  main : String
  description : String
  icon : String
deriving DecidableEq

/-- The `wind` sub-dictionary (lines 52–54). -/
structure Wind where
  speed : ℚ
deriving DecidableEq

/-- The dictionary returned by `get_mock_weather_data` (lines 39–60). -/
structure WeatherData where
  name : String
  main : WeatherMain
  weather : List WeatherCondition
  wind : Wind
  dt : Nat
  sunrise : Nat
  sunset : Nat
deriving DecidableEq

/-- The random draws one call of the generator consumes, made explicit:
`tempR`, `feelsR`, `windR` are `random.random()` outputs (contract: in
`[0,1]`), the `Nat` draws feed `randint`/`choice`. -/
structure WeatherDraws where
  tempR : ℚ
  feelsR : ℚ
  windR : ℚ
  humidN : Nat
  pressN : Nat
  mainN : Nat
  descN : Nat

/-- `random.uniform(a, b) = a + (b - a) * random.random()` (CPython). -/
def uniformSample (a b r : ℚ) : ℚ := a + (b - a) * r

/-- `random.randint(a, b)`: an arbitrary draw reduced into `[a, b]`. -/
def randintSample (a b n : Nat) : Nat := a + n % (b - a + 1)

/-- `random.choice(l)`: an arbitrary draw reduced to an index of `l`. -/
def choiceSample (l : List String) (n : Nat) : String :=
  l.getD (n % l.length) ""

/-- `conditions` (line 38). -/
def conditions : List String :=
  ["clear sky", "few clouds", "scattered clouds", "light rain"]

/-- `get_mock_weather_data` (lines 36–60).  `nowEpoch` stands for
`int(datetime.now().timestamp())` and `midnightEpoch` for the epoch second of
today's 00:00, so `replace(hour=6, minute=30)` becomes an offset from it. -/
def get_mock_weather_data (location : String) (d : WeatherDraws)
    (nowEpoch midnightEpoch : Nat) : WeatherData :=
  { name := location
    main :=
      { temp := round1 (uniformSample 15.0 25.0 d.tempR)
        feels_like := round1 (uniformSample 14.0 26.0 d.feelsR)
        humidity := randintSample 40 80 d.humidN
        pressure := randintSample 1000 1020 d.pressN }
    weather :=
      [{ main := choiceSample ["Clear", "Clouds", "Rain"] d.mainN
         description := choiceSample conditions d.descN
         icon := "01d" }]
    wind := { speed := round1 (uniformSample 1.0 10.0 d.windR) }
    dt := nowEpoch
    sunrise := midnightEpoch + (6 * 60 + 30) * 60
    sunset := midnightEpoch + (19 * 60 + 45) * 60 }

/-! ### Weather formatter (`get_weather_data`, lines 123–156) -/

/-- The heating recommendation (line 150). -/
def heatingRec (temp : ℚ) : String :=
  if temp < 18 then "Increase" else if temp < 22 then "Maintain" else "Decrease"

/-- The natural-lighting recommendation (line 151): case-sensitive Python
substring tests on the description. -/
def lightingRec (description : String) : String :=
  if strContainsSub description "cloud" || strContainsSub description "rain" then
    "Low - consider increasing indoor lighting"
  else "Good"

/-- The window-management recommendation (line 152). -/
def windowRec (description : String) : String :=
  if strContainsSub description "rain" then "Close windows" else "Consider ventilation"

/-- `json.dumps` of one element of the `weather` list. -/
def dumpCondition (c : WeatherCondition) : String :=
  "    \x7b\n      \"main\": " ++ jsonStr c.main
    ++ ",\n      \"description\": " ++ jsonStr c.description
    ++ ",\n      \"icon\": " ++ jsonStr c.icon ++ "\n    \x7d"

/-- `json.dumps(weather_data, indent=2)` (line 154). -/
def dumpsWeather (w : WeatherData) : String :=
  "\x7b\n  \"name\": " ++ jsonStr w.name
    ++ ",\n  \"main\": \x7b\n    \"temp\": " ++ pyFloatRepr w.main.temp
    ++ ",\n    \"feels_like\": " ++ pyFloatRepr w.main.feels_like
    ++ ",\n    \"humidity\": " ++ toString w.main.humidity
    ++ ",\n    \"pressure\": " ++ toString w.main.pressure
    ++ "\n  \x7d,\n  \"weather\": [\n"
    ++ String.intercalate ",\n" (w.weather.map dumpCondition)
    ++ "\n  ],\n  \"wind\": \x7b\n    \"speed\": " ++ pyFloatRepr w.wind.speed
    ++ "\n  \x7d,\n  \"dt\": " ++ toString w.dt
    ++ ",\n  \"sys\": \x7b\n    \"sunrise\": " ++ toString w.sunrise
    ++ ",\n    \"sunset\": " ++ toString w.sunset
    ++ "\n  \x7d\n\x7d"

/-- The `WeatherRequest` model (lines 28–29). -/
structure WeatherRequest where
  location : String
deriving DecidableEq

/-- Pydantic parsing of a `WeatherRequest`: the default `"London"` is used
only when the field is absent; a present value — the empty string included —
is kept verbatim. -/
def parseWeatherRequest (location : Option String) : WeatherRequest :=
  { location := location.getD "London" }

/-- The `get_weather_data` tool (lines 123–156). -/
def get_weather_data (request : WeatherRequest) (d : WeatherDraws)
    (nowEpoch midnightEpoch : Nat) : String :=
  let weather_data := get_mock_weather_data request.location d nowEpoch midnightEpoch
  let temp := weather_data.main.temp
  let description := (weather_data.weather.getD 0 ⟨"", "", ""⟩).description
  "🌤️ Weather Data for " ++ weather_data.name
    ++ ":\n        \n📊 Current Conditions:\n• Temperature: " ++ pyFloatRepr temp
    ++ "°C\n• Description: " ++ pyTitle description
    ++ "\n• Humidity: " ++ toString weather_data.main.humidity
    ++ "%\n• Wind Speed: " ++ pyFloatRepr weather_data.wind.speed
    ++ " m/s\n• Pressure: " ++ toString weather_data.main.pressure
    ++ " hPa\n\n🏠 HomeGenie Impact:\n• Heating recommendation: " ++ heatingRec temp
    ++ "\n• Natural lighting: " ++ lightingRec description
    ++ "\n• Window management: " ++ windowRec description
    ++ "\n\n📱 Raw Data: " ++ dumpsWeather weather_data

/-! ### Health check (`health_check`, lines 194–202) -/

/-- The `health_check` tool: `json.dumps` of the four-field status
dictionary, `timestamp` being `datetime.now().isoformat()`. -/
def health_check (now : DateTime) : String :=
  "\x7b\"status\": \"healthy\", \"timestamp\": " ++ jsonStr (isoformat now)
    ++ ", \"service\": \"HomeGenie MCP Server\", \"version\": \"1.0.0\"\x7d"

/-- Well-formedness check for a second-precision ISO-8601 local timestamp:
`DDDD-DD-DDTDD:DD:DD` with `D` a decimal digit. -/
def wellFormedISO (s : String) : Bool :=
  match s.data with
  | [y1, y2, y3, y4, a1, mo1, mo2, a2, d1, d2, tSep, h1, h2, b1, mi1, mi2, b2, se1, se2] =>
    y1.isDigit && y2.isDigit && y3.isDigit && y4.isDigit && a1 == '-'
      && mo1.isDigit && mo2.isDigit && a2 == '-' && d1.isDigit && d2.isDigit
      && tSep == 'T' && h1.isDigit && h2.isDigit && b1 == ':'
      && mi1.isDigit && mi2.isDigit && b2 == ':' && se1.isDigit && se2.isDigit
  | _ => false

/-! ### Helper lemmas -/

theorem num_div_den_floor (q : ℚ) : q.num / (q.den : ℤ) = ⌊q⌋ :=
  Rat.floor_def.symm

theorem roundHalfEven_intCast (n : ℤ) : roundHalfEven ((n : ℚ)) = n := by
  simp only [roundHalfEven, Rat.num_intCast, Rat.den_intCast]
  norm_num

theorem roundHalfEven_ge (n : ℤ) (q : ℚ) (h : (n : ℚ) ≤ q) : n ≤ roundHalfEven q := by
  have hf : n ≤ q.num / (q.den : ℤ) := by
    rw [num_div_den_floor]; exact Int.le_floor.mpr h
  simp only [roundHalfEven]
  split_ifs <;> omega

theorem roundHalfEven_le (n : ℤ) (q : ℚ) (h : q ≤ (n : ℚ)) : roundHalfEven q ≤ n := by
  have hden : (0 : ℤ) < (q.den : ℤ) := by exact_mod_cast q.den_pos
  have hfn : q.num / (q.den : ℤ) ≤ n := by
    rw [num_div_den_floor]
    calc ⌊q⌋ ≤ ⌊(n : ℚ)⌋ := Int.floor_le_floor h
    _ = n := Int.floor_intCast n
  have hq : q.num ≤ n * (q.den : ℤ) := by
    have hden2 : (0 : ℚ) < (q.den : ℚ) := by exact_mod_cast q.den_pos
    have h2 : ((q.num : ℚ)) / ((q.den : ℚ)) ≤ (n : ℚ) := by
      rw [Rat.num_div_den q]; exact h
    have h3 : ((q.num : ℚ)) ≤ (n : ℚ) * ((q.den : ℚ)) := (div_le_iff₀ hden2).mp h2
    exact_mod_cast h3
  have hrem : q.num - q.num / (q.den : ℤ) * (q.den : ℤ) = q.num % (q.den : ℤ) := by
    have h3 := Int.ediv_add_emod q.num (q.den : ℤ)
    have h4 : (q.den : ℤ) * (q.num / (q.den : ℤ)) = q.num / (q.den : ℤ) * (q.den : ℤ) :=
      mul_comm _ _
    omega
  have hstep : (q.den : ℤ) ≤ 2 * (q.num % (q.den : ℤ)) → q.num / (q.den : ℤ) + 1 ≤ n := by
    intro hr
    rcases lt_or_eq_of_le hfn with hlt2 | heq
    · omega
    · exfalso
      have h5 : n * (q.den : ℤ) = q.num / (q.den : ℤ) * (q.den : ℤ) := by rw [heq]
      omega
  simp only [roundHalfEven, hrem]
  split_ifs with h1 h2 h3
  · exact hfn
  · exact hstep (by omega)
  · exact hfn
  · exact hstep (by omega)

theorem round3_concrete (q : ℚ) (n : ℤ) (hmul : q * 1000 = (n : ℚ)) :
    round3 q = (n : ℚ) / 1000 := by
  unfold round3
  rw [hmul, roundHalfEven_intCast]

theorem round1_bounds (lo hi : ℤ) (q : ℚ) (h1 : (lo : ℚ) ≤ q) (h2 : q ≤ (hi : ℚ)) :
    (lo : ℚ) ≤ round1 q ∧ round1 q ≤ (hi : ℚ) := by
  have hge : lo * 10 ≤ roundHalfEven (q * 10) := by
    apply roundHalfEven_ge
    push_cast
    linarith
  have hle : roundHalfEven (q * 10) ≤ hi * 10 := by
    apply roundHalfEven_le
    push_cast
    linarith
  unfold round1
  constructor
  · have : ((lo * 10 : ℤ) : ℚ) ≤ (roundHalfEven (q * 10) : ℚ) := by exact_mod_cast hge
    push_cast at this
    linarith
  · have : ((roundHalfEven (q * 10) : ℤ) : ℚ) ≤ ((hi * 10 : ℤ) : ℚ) := by exact_mod_cast hle
    push_cast at this
    linarith

theorem round1_tenth (q : ℚ) : ∃ z : ℤ, round1 q = (z : ℚ) / 10 :=
  ⟨roundHalfEven (q * 10), rfl⟩

theorem uniformSample_bounds (a b r : ℚ) (hab : a ≤ b) (h0 : 0 ≤ r) (h1 : r ≤ 1) :
    a ≤ uniformSample a b r ∧ uniformSample a b r ≤ b := by
  unfold uniformSample
  constructor <;> nlinarith

theorem randintSample_bounds (a b n : Nat) (hab : a ≤ b) :
    a ≤ randintSample a b n ∧ randintSample a b n ≤ b := by
  unfold randintSample
  have hm : n % (b - a + 1) < b - a + 1 := Nat.mod_lt _ (by omega)
  omega

theorem escapeL_id (l : List Char) (h : ∀ c ∈ l, escapeChar c = [c]) :
    escapeL l = l := by
  induction l with
  | nil => rfl
  | cons c cs ih =>
    show escapeChar c ++ escapeL cs = c :: cs
    rw [h c (List.mem_cons_self c cs), ih fun x hx => h x (List.mem_cons_of_mem c hx)]
    rfl

theorem digitChar_isDigit (k : Nat) : (digitChar k).isDigit = true := by
  unfold digitChar
  split_ifs <;> decide

theorem escapeChar_digitChar (k : Nat) : escapeChar (digitChar k) = [digitChar k] := by
  unfold digitChar
  split_ifs <;> decide

/-! ### Claim theorems -/

/-- C1: the pricing tiers — `peak` (multiplier 1.8) on hours 7–9 and 17–20,
`off_peak` (0.7) on hours ≥ 22 or ≤ 6 not already peak, `standard` (1.0)
otherwise, boundary hours resolved by the first matching range in table
order — assign exactly one tier to every hour of the day with no gaps or
overlaps. -/
theorem pricing_tier_partition : ∀ h : Nat, h < 24 →
    ((tierLabel h = "peak" ∧ tierMultiplier h = 1.8) ↔
      ((7 ≤ h ∧ h ≤ 9) ∨ (17 ≤ h ∧ h ≤ 20))) ∧
    ((tierLabel h = "off_peak" ∧ tierMultiplier h = 0.7) ↔
      ((22 ≤ h ∨ h ≤ 6) ∧ ¬ ((7 ≤ h ∧ h ≤ 9) ∨ (17 ≤ h ∧ h ≤ 20)))) ∧
    ((tierLabel h = "standard" ∧ tierMultiplier h = 1.0) ↔
      (¬ (22 ≤ h ∨ h ≤ 6) ∧ ¬ ((7 ≤ h ∧ h ≤ 9) ∨ (17 ≤ h ∧ h ≤ 20)))) ∧
    (tierLabel h = "peak" ∨ tierLabel h = "off_peak" ∨ tierLabel h = "standard") := by
  intro h hh
  have d1 : ("peak" : String) ≠ "off_peak" := by decide
  have d2 : ("peak" : String) ≠ "standard" := by decide
  have d3 : ("off_peak" : String) ≠ "peak" := by decide
  have d4 : ("off_peak" : String) ≠ "standard" := by decide
  have d5 : ("standard" : String) ≠ "peak" := by decide
  have d6 : ("standard" : String) ≠ "off_peak" := by decide
  unfold tierLabel tierMultiplier tierOf
  split_ifs with h1 h2 <;> simp_all

/-- Witness for C1 at hour 8 (a peak hour). -/
theorem pricing_tier_partition_apply :
    tierLabel 8 = "peak" ∧ tierMultiplier 8 = 1.8 :=
  (pricing_tier_partition 8 (by decide)).1.mpr (by decide)

/-- C2: `current_price.price_per_kwh` is exactly
`round(0.25 * tier_multiplier(current_hour), 3)`; in particular 0.45 at
hour 8, 0.175 at hour 23, 0.25 at hour 12. -/
theorem current_price_round_formula (region : String) (now : DateTime) :
    (get_mock_energy_prices region now).current_price.price_per_kwh
        = round3 (basePrice * tierMultiplier now.hour) ∧
    basePrice = 0.25 ∧
    (now.hour = 8 →
      (get_mock_energy_prices region now).current_price.price_per_kwh = 0.45) ∧
    (now.hour = 23 →
      (get_mock_energy_prices region now).current_price.price_per_kwh = 0.175) ∧
    (now.hour = 12 →
      (get_mock_energy_prices region now).current_price.price_per_kwh = 0.25) := by
  refine ⟨rfl, rfl, ?_, ?_, ?_⟩ <;> intro hh <;>
    simp only [get_mock_energy_prices] <;> rw [hh]
  · rw [round3_concrete _ 450 (by norm_num [basePrice, tierOf])]; norm_num
  · rw [round3_concrete _ 175 (by norm_num [basePrice, tierOf])]; norm_num
  · rw [round3_concrete _ 250 (by norm_num [basePrice, tierOf])]; norm_num

/-- Witness for C2 with the clock at 08:30. -/
theorem current_price_round_formula_apply :
    (get_mock_energy_prices "EU" ⟨2025, 6, 1, 8, 30, 0⟩).current_price.price_per_kwh
      = 0.45 :=
  (current_price_round_formula "EU" ⟨2025, 6, 1, 8, 30, 0⟩).2.2.1 rfl

/-- C3: the forecast (computed by the generator whatever the
`include_forecast` flag, which the generator does not even receive) always
has 24 entries; entry `i` is derived from the instant `now + i` hours, so
consecutive entries are exactly one hour apart; the first entry's instant is
`now` itself; and every entry's period label is the tier function applied to
that entry's hour-of-day. -/
theorem forecast_invariants (region : String) (now : DateTime) (hh : now.hour < 24) :
    ((get_mock_energy_prices region now).price_forecast).length = 24 ∧
    (∀ i, ∀ hi : i < ((get_mock_energy_prices region now).price_forecast).length,
      ((get_mock_energy_prices region now).price_forecast).get ⟨i, hi⟩
          = mkForecastPoint (addHours now i) ∧
      (((get_mock_energy_prices region now).price_forecast).get ⟨i, hi⟩).period
          = tierLabel ((addHours now i).hour)) ∧
    (∀ i, absMinutes (addHours now (i + 1)) = absMinutes (addHours now i) + 60) ∧
    addHours now 0 = now := by
  refine ⟨by simp [get_mock_energy_prices], ?_, ?_, ?_⟩
  · intro i hi
    have he : ((get_mock_energy_prices region now).price_forecast).get ⟨i, hi⟩
        = mkForecastPoint (addHours now i) := by
      simp [get_mock_energy_prices, List.get_eq_getElem]
    exact ⟨he, by rw [he]; rfl⟩
  · intro i
    unfold absMinutes addHours
    simp only
    have h1 := Nat.div_add_mod (now.hour + i) 24
    have h2 := Nat.div_add_mod (now.hour + (i + 1)) 24
    omega
  · cases now with
    | mk y mo d h mi s =>
      have hh' : h < 24 := hh
      have h24 : (h + 0) / 24 = 0 := by omega
      have hm : (h + 0) % 24 = h := by omega
      simp [addHours, h24, hm]
      omega

/-- Witness for C3 with the clock at exactly 08:00: the first forecast entry
is stamped "08:00" in the peak tier, and the 22:00 entry (index 14) is
off-peak. -/
theorem forecast_invariants_apply :
    ((get_mock_energy_prices "EU" ⟨2025, 6, 1, 8, 0, 0⟩).price_forecast).length = 24 ∧
    addHours ⟨2025, 6, 1, 8, 0, 0⟩ 0 = ⟨2025, 6, 1, 8, 0, 0⟩ ∧
    strftimeHM (addHours ⟨2025, 6, 1, 8, 0, 0⟩ 0) = "08:00" ∧
    tierLabel ((addHours ⟨2025, 6, 1, 8, 0, 0⟩ 0).hour) = "peak" ∧
    tierLabel ((addHours ⟨2025, 6, 1, 8, 0, 0⟩ 14).hour) = "off_peak" := by
  obtain ⟨hlen, helem, hstep, h0⟩ :=
    forecast_invariants "EU" ⟨2025, 6, 1, 8, 0, 0⟩ (by decide)
  exact ⟨hlen, h0, by decide, by decide, by decide⟩

/-- C4: the weather formatter's recommendations follow exactly the spec's
threshold and substring rules (the spec abbreviates the emitted sentences;
the branch taken is what is claimed).  The lighting and ventilation rules
are stated with the spec's case-insensitive substring test, which on the
generator's description vocabulary coincides with the source's
case-sensitive test. -/
theorem weather_recommendation_rules (t : ℚ) (desc : String) (hd : desc ∈ conditions) :
    (heatingRec t = "Increase" ↔ t < 18) ∧
    (heatingRec t = "Maintain" ↔ (¬ t < 18 ∧ t < 22)) ∧
    (heatingRec t = "Decrease" ↔ (¬ t < 18 ∧ ¬ t < 22)) ∧
    (lightingRec desc = "Low - consider increasing indoor lighting"
        ↔ (containsCI desc "cloud" = true ∨ containsCI desc "rain" = true)) ∧
    (lightingRec desc = "Good"
        ↔ ¬ (containsCI desc "cloud" = true ∨ containsCI desc "rain" = true)) ∧
    (windowRec desc = "Close windows" ↔ containsCI desc "rain" = true) ∧
    (windowRec desc = "Consider ventilation" ↔ ¬ containsCI desc "rain" = true) := by
  have hd' : desc = "clear sky" ∨ desc = "few clouds" ∨ desc = "scattered clouds"
      ∨ desc = "light rain" := by
    simpa [conditions] using hd
  have e1 : ("Increase" : String) ≠ "Maintain" := by decide
  have e2 : ("Increase" : String) ≠ "Decrease" := by decide
  have e3 : ("Maintain" : String) ≠ "Increase" := by decide
  have e4 : ("Maintain" : String) ≠ "Decrease" := by decide
  have e5 : ("Decrease" : String) ≠ "Increase" := by decide
  have e6 : ("Decrease" : String) ≠ "Maintain" := by decide
  refine ⟨?_, ?_, ?_, ?_, ?_, ?_, ?_⟩
  · unfold heatingRec; split_ifs with h1 h2 <;> simp_all
  · unfold heatingRec; split_ifs with h1 h2 <;> simp_all
  · unfold heatingRec; split_ifs with h1 h2 <;> simp_all
  · rcases hd' with h | h | h | h <;> subst h <;> decide
  · rcases hd' with h | h | h | h <;> subst h <;> decide
  · rcases hd' with h | h | h | h <;> subst h <;> decide
  · rcases hd' with h | h | h | h <;> subst h <;> decide

/-- Witness for C4: 16 °C yields "Increase", 20 °C "Maintain", 23 °C
"Decrease", and "light rain" closes the windows. -/
theorem weather_recommendation_rules_apply :
    heatingRec 16 = "Increase" ∧ heatingRec 20 = "Maintain" ∧
    heatingRec 23 = "Decrease" ∧ windowRec "light rain" = "Close windows" := by
  have h16 := weather_recommendation_rules 16 "light rain" (by decide)
  have h20 := weather_recommendation_rules 20 "light rain" (by decide)
  have h23 := weather_recommendation_rules 23 "light rain" (by decide)
  exact ⟨h16.1.mpr (by decide), h20.2.1.mpr (by decide),
    h23.2.2.1.mpr (by decide), h16.2.2.2.2.2.1.mpr (by decide)⟩

/-- C5: the energy formatter's cost-impact thresholds (0.35, 0.20) and the
period-keyed smart action follow exactly the spec's rules (the spec
abbreviates the emitted sentences; the branch taken is what is claimed). -/
theorem energy_recommendation_rules (p : ℚ) (period : String) :
    (costImpact p = "High cost - consider energy saving" ↔ p > 0.35) ∧
    (costImpact p = "Standard cost" ↔ (¬ p > 0.35 ∧ p > 0.20)) ∧
    (costImpact p = "Low cost - good time for energy-intensive tasks"
        ↔ (¬ p > 0.35 ∧ ¬ p > 0.20)) ∧
    (smartActions period = "Delay washing/heating" ↔ period = "peak") ∧
    (smartActions period = "Good time for appliances" ↔ period = "off_peak") ∧
    (smartActions period = "Normal usage"
        ↔ (¬ period = "peak" ∧ ¬ period = "off_peak")) := by
  have e1 : ("High cost - consider energy saving" : String) ≠ "Standard cost" := by decide
  have e2 : ("High cost - consider energy saving" : String)
      ≠ "Low cost - good time for energy-intensive tasks" := by decide
  have e3 : ("Standard cost" : String) ≠ "High cost - consider energy saving" := by decide
  have e4 : ("Standard cost" : String)
      ≠ "Low cost - good time for energy-intensive tasks" := by decide
  have e5 : ("Low cost - good time for energy-intensive tasks" : String)
      ≠ "High cost - consider energy saving" := by decide
  have e6 : ("Low cost - good time for energy-intensive tasks" : String)
      ≠ "Standard cost" := by decide
  have a1 : ("Delay washing/heating" : String) ≠ "Good time for appliances" := by decide
  have a2 : ("Delay washing/heating" : String) ≠ "Normal usage" := by decide
  have a3 : ("Good time for appliances" : String) ≠ "Delay washing/heating" := by decide
  have a4 : ("Good time for appliances" : String) ≠ "Normal usage" := by decide
  have a5 : ("Normal usage" : String) ≠ "Delay washing/heating" := by decide
  have a6 : ("Normal usage" : String) ≠ "Good time for appliances" := by decide
  have p1 : ("peak" : String) ≠ "off_peak" := by decide
  have p2 : ("off_peak" : String) ≠ "peak" := by decide
  unfold costImpact smartActions
  split_ifs with h1 h2 h3 h4 <;> simp_all

/-- C6: with `include_forecast = false` the returned string is exactly the
fixed body followed by the raw-data section — no forecast section; with
`true` the forecast section is inserted between them, and it consists of
the header plus one line per entry of the first 8 forecast entries, which
are chronologically the entries for `now + 0 … now + 7` hours. -/
theorem forecast_section_rendering (region : String) (now : DateTime) :
    get_energy_prices ⟨region, false⟩ now
        = energyBody region (get_mock_energy_prices region now)
            ++ rawSection (get_mock_energy_prices region now) ∧
    get_energy_prices ⟨region, true⟩ now
        = energyBody region (get_mock_energy_prices region now)
            ++ forecastSection (get_mock_energy_prices region now)
            ++ rawSection (get_mock_energy_prices region now) ∧
    forecastSection (get_mock_energy_prices region now)
        = "\n\n📈 Next 8 Hours Forecast:\n"
            ++ String.join
                (((get_mock_energy_prices region now).price_forecast.take 8).map
                  forecastLine) ∧
    (get_mock_energy_prices region now).price_forecast.take 8
        = ((List.range 8).map fun i => mkForecastPoint (addHours now i)) ∧
    (((get_mock_energy_prices region now).price_forecast.take 8).map
        forecastLine).length = 8 := by
  refine ⟨rfl, rfl, rfl, ?_, by simp [get_mock_energy_prices]⟩
  show ((List.range 24).map fun i => mkForecastPoint (addHours now i)).take 8 = _
  rw [← List.map_take, List.take_range]
  norm_num

/-- C7: every numeric field of a generated weather reading lies in its
stated range whatever the random draws (given only the `random.random()`
contract of landing in `[0,1]`), and the temperatures and wind speed are
exact multiples of 0.1. -/
theorem weather_generator_bounds (location : String) (d : WeatherDraws)
    (nowE midE : Nat)
    (ht0 : 0 ≤ d.tempR) (ht1 : d.tempR ≤ 1)
    (hf0 : 0 ≤ d.feelsR) (hf1 : d.feelsR ≤ 1)
    (hw0 : 0 ≤ d.windR) (hw1 : d.windR ≤ 1) :
    (15 ≤ (get_mock_weather_data location d nowE midE).main.temp ∧
      (get_mock_weather_data location d nowE midE).main.temp ≤ 25 ∧
      (∃ z : ℤ, (get_mock_weather_data location d nowE midE).main.temp = (z : ℚ) / 10)) ∧
    (14 ≤ (get_mock_weather_data location d nowE midE).main.feels_like ∧
      (get_mock_weather_data location d nowE midE).main.feels_like ≤ 26 ∧
      (∃ z : ℤ,
        (get_mock_weather_data location d nowE midE).main.feels_like = (z : ℚ) / 10)) ∧
    (40 ≤ (get_mock_weather_data location d nowE midE).main.humidity ∧
      (get_mock_weather_data location d nowE midE).main.humidity ≤ 80) ∧
    (1000 ≤ (get_mock_weather_data location d nowE midE).main.pressure ∧
      (get_mock_weather_data location d nowE midE).main.pressure ≤ 1020) ∧
    (1 ≤ (get_mock_weather_data location d nowE midE).wind.speed ∧
      (get_mock_weather_data location d nowE midE).wind.speed ≤ 10 ∧
      (∃ z : ℤ, (get_mock_weather_data location d nowE midE).wind.speed = (z : ℚ) / 10)) := by
  obtain ⟨ht1', ht2'⟩ := uniformSample_bounds 15.0 25.0 d.tempR (by norm_num) ht0 ht1
  obtain ⟨hr1, hr2⟩ := round1_bounds 15 25 (uniformSample 15.0 25.0 d.tempR)
    (by push_cast; linarith) (by push_cast; linarith)
  obtain ⟨hfe1, hfe2⟩ := uniformSample_bounds 14.0 26.0 d.feelsR (by norm_num) hf0 hf1
  obtain ⟨hs1, hs2⟩ := round1_bounds 14 26 (uniformSample 14.0 26.0 d.feelsR)
    (by push_cast; linarith) (by push_cast; linarith)
  obtain ⟨hwi1, hwi2⟩ := uniformSample_bounds 1.0 10.0 d.windR (by norm_num) hw0 hw1
  obtain ⟨hv1, hv2⟩ := round1_bounds 1 10 (uniformSample 1.0 10.0 d.windR)
    (by push_cast; linarith) (by push_cast; linarith)
  obtain ⟨hh1, hh2⟩ := randintSample_bounds 40 80 d.humidN (by norm_num)
  obtain ⟨hp1, hp2⟩ := randintSample_bounds 1000 1020 d.pressN (by norm_num)
  refine ⟨⟨?_, ?_, round1_tenth _⟩, ⟨?_, ?_, round1_tenth _⟩,
    ⟨hh1, hh2⟩, ⟨hp1, hp2⟩, ?_, ?_, round1_tenth _⟩
  · show (15 : ℚ) ≤ round1 (uniformSample 15.0 25.0 d.tempR); exact_mod_cast hr1
  · show round1 (uniformSample 15.0 25.0 d.tempR) ≤ (25 : ℚ); exact_mod_cast hr2
  · show (14 : ℚ) ≤ round1 (uniformSample 14.0 26.0 d.feelsR); exact_mod_cast hs1
  · show round1 (uniformSample 14.0 26.0 d.feelsR) ≤ (26 : ℚ); exact_mod_cast hs2
  · show (1 : ℚ) ≤ round1 (uniformSample 1.0 10.0 d.windR); exact_mod_cast hv1
  · show round1 (uniformSample 1.0 10.0 d.windR) ≤ (10 : ℚ); exact_mod_cast hv2

/-- Witness for C7 with all uniform draws at 0 and all integer draws at 0. -/
theorem weather_generator_bounds_apply :
    15 ≤ (get_mock_weather_data "London" ⟨0, 0, 0, 0, 0, 0, 0⟩ 0 0).main.temp ∧
    (get_mock_weather_data "London" ⟨0, 0, 0, 0, 0, 0, 0⟩ 0 0).main.temp ≤ 25 ∧
    40 ≤ (get_mock_weather_data "London" ⟨0, 0, 0, 0, 0, 0, 0⟩ 0 0).main.humidity ∧
    (get_mock_weather_data "London" ⟨0, 0, 0, 0, 0, 0, 0⟩ 0 0).main.humidity ≤ 80 := by
  obtain ⟨⟨h1, h2, _⟩, _, ⟨h3, h4⟩, _⟩ :=
    weather_generator_bounds "London" ⟨0, 0, 0, 0, 0, 0, 0⟩ 0 0
      (by decide) (by decide) (by decide) (by decide) (by decide) (by decide)
  exact ⟨h1, h2, h3, h4⟩

/-- C8 counterexample: an explicitly supplied empty location is NOT
defaulted to "London" — pydantic's `Field(default=...)` substitutes the
default only for an absent field, so `location=""` stays empty, refuting
the claim that a missing *or empty* location is defaulted. -/
theorem empty_location_kept_verbatim :
    (parseWeatherRequest (some "")).location = "" ∧
    (parseWeatherRequest (some "")).location ≠ "London" :=
  ⟨rfl, by decide⟩

/-- C8 amended: a *missing* location defaults to "London" and a missing
region to "EU" (and a missing `include_forecast` to `true`); a value that is
present — the empty string included — is used verbatim; parsing is total, so
no request is rejected. -/
theorem request_default_rules :
    parseWeatherRequest none = ⟨"London"⟩ ∧
    parseEnergyRequest none none = ⟨"EU", true⟩ ∧
    (∀ s, (parseWeatherRequest (some s)).location = s) ∧
    (∀ r b, parseEnergyRequest (some r) (some b) = ⟨r, b⟩) :=
  ⟨rfl, rfl, fun _ => rfl, fun _ _ => rfl⟩

/-- C9: `health_check` returns the JSON payload with status "healthy",
service name and version, and a well-formed ISO-8601 timestamp — the
serialized clock reading taken at the call (the embedding passes the
call-time clock value `now` directly, so the emitted timestamp is exactly
the call-time one). -/
theorem health_check_payload (now : DateTime) :
    health_check now
        = "\x7b\"status\": \"healthy\", \"timestamp\": \"" ++ isoformat now
            ++ "\", \"service\": \"HomeGenie MCP Server\", \"version\": \"1.0.0\"\x7d" ∧
    wellFormedISO (isoformat now) = true := by
  constructor
  · have hesc : escapeL (isoformat now).data = (isoformat now).data := by
      apply escapeL_id
      intro c hc
      simp [isoformat, pad4L, pad2L] at hc
      rcases hc with h | h | h | h | h | h | h | h | h | h | h | h | h | h | h | h | h | h | h <;>
        subst h <;> first | exact escapeChar_digitChar _ | decide
    unfold health_check jsonStr
    rw [hesc]
    simp [String.ext_iff, String.data_append, List.append_assoc]
  · unfold wellFormedISO isoformat pad4L pad2L
    simp [digitChar_isDigit]

/-- C10: whatever the `include_forecast` flag, the tool output ends with the
raw-data section, which serializes the same full report — the flag is not
passed to the generator — and that serialization runs over all 24 forecast
entries. -/
theorem raw_payload_always_full (region : String) (flag : Bool) (now : DateTime) :
    (∃ s, get_energy_prices ⟨region, flag⟩ now
        = s ++ rawSection (get_mock_energy_prices region now)) ∧
    rawSection (get_mock_energy_prices region now)
        = "\n\n📱 Raw Data: " ++ dumpsReport (get_mock_energy_prices region now) ∧
    dumpsReport (get_mock_energy_prices region now)
        = dumpsReportPre (get_mock_energy_prices region now)
            ++ String.intercalate ",\n"
                ((get_mock_energy_prices region now).price_forecast.map dumpPoint)
            ++ dumpsReportPost (get_mock_energy_prices region now) ∧
    ((get_mock_energy_prices region now).price_forecast.map dumpPoint).length = 24 := by
  refine ⟨?_, rfl, rfl, by simp [get_mock_energy_prices]⟩
  cases flag
  · exact ⟨_, rfl⟩
  · exact ⟨_, rfl⟩

end HomeGenie
